import Mathlib

/-!
Formal model of the `soar` message-dispatch core.

The embedding follows the Rust source:
* `src/router.rs` — the `Router` actor owning an `AnyMap` of `Route<M>`
  entries, its `insert_handler` / `remove_handler` / `get_recipient`
  operations, the `AddRouteFuture` handler that installs a shared pending
  computation and spawns a promotion task, the generic
  `impl Handler<M> for Router` dispatch path, and the
  `MessageResponse` implementation of `SoarResponse`.
* `src/http/client.rs` and `src/channel.rs` — the two `HttpHandler`
  remote-transport implementations (bincode-codec and JSON-codec).
* `src/test_helpers.rs` — `TestMessage`, `TestResponse` and the echoing
  `TestHandler`.

Machine-level conventions: the `AnyMap` keys every entry by the Rust type
of the stored value, so it is modelled as a pair of dependent maps over
type identities (`TypeId`, a `Nat`): one for entries keyed by `Route<M>`
(where all insertions and lookups go) and one for entries keyed by the
bare message type `M` (where `remove::<M>()` goes); futures are modelled
by their eventual outcome
(`FutOutcome`), with a `never` constructor for a computation that is never
going to resolve, so that "fails rather than hangs" is expressible;
`u8` values are `Nat`s constrained to `< 256` where the codec depends on it.
-/

namespace Soar

/-- Outcome of awaiting a future: resolves with a value, resolves with an
error, or never resolves (hangs forever). -/
inductive FutOutcome (ε : Type) (α : Type) where
  | ok (a : α)
  | err (e : ε)
  | never
deriving DecidableEq, Repr

/-- Identity of a Rust message type `M` (the key of the `AnyMap`). -/
abbrev TypeId := Nat

/-- Model of `Route<M>` from `src/router.rs`: either a resolved `Recipient<M>`
(`Done`), or a shared pending future that will eventually yield one
(`Pending`).  A pending route is modelled by the eventual outcome of the
underlying boxed future (`Item = Recipient<M>`, `Error = ()`). -/
inductive Route (H : Type) where
  | pending (comp : FutOutcome Unit H)
  | done (h : H)
deriving DecidableEq, Repr

/-- The `AnyMap` of the `Router`.  An `anymap::AnyMap` keys every entry by
the Rust type of the stored value, so the map is partitioned here by the
shape of that key type: `routes i` is the entry stored under the key
`Route<M>` for the message type of identity `i` — the key used by every
insertion path (`insert_handler` stores `Route::Done(..)`, the pending
path stores `Route::Pending(..)`) and read by `get_recipient`, holding
exactly a `Route` at the handler type `HT i` (the type-recovery invariant
of the `AnyMap`) — while `msgEntries i` is the entry stored under the bare
key `M` itself (a value of message type `MT i`), the key that
`remove_handler` targets with `remove::<M>()`; no code path of the router
ever inserts at a bare key. -/
structure RouterState (HT : TypeId → Type) (MT : TypeId → Type) where
  routes : (i : TypeId) → Option (Route (HT i))
  msgEntries : (i : TypeId) → Option (MT i)

/-- Model of `Router::new` — the empty routing table. -/
def RouterState.new (HT MT : TypeId → Type) : RouterState HT MT :=
  ⟨fun _ => none, fun _ => none⟩

/-- Model of `Router::insert_handler::<M>` — store `Route::Done(handler)` under the
key of `M`, overwriting whatever was there (`AnyMap::insert`). -/
def RouterState.insert_handler {HT MT : TypeId → Type} (r : RouterState HT MT)
    (m : TypeId) (h : HT m) : RouterState HT MT :=
  ⟨fun i => if e : i = m then some (e ▸ Route.done h) else r.routes i,
   r.msgEntries⟩

/-- Model of `Router::remove_handler::<M>` — `self.routes.remove::<M>()`
removes the `AnyMap` entry keyed by the bare type `M`.  Every insertion
path stores under the key `Route<M>`, so this deletes only the bare-`M`
slot and touches no route entry. -/
def RouterState.remove_handler {HT MT : TypeId → Type} (r : RouterState HT MT)
    (m : TypeId) : RouterState HT MT :=
  ⟨r.routes, fun i => if i = m then none else r.msgEntries i⟩

/-- Model of `Router::get_recipient::<M>` — the asynchronous lookup.  If no entry
exists the returned future fails immediately with `()`; a `Done` entry
yields the recipient immediately; a `Pending` entry composes with the
shared future (cloning its item on success, discarding its error). -/
def RouterState.get_recipient {HT MT : TypeId → Type} (r : RouterState HT MT)
    (m : TypeId) : FutOutcome Unit (HT m) :=
  match r.routes m with
  | none => .err ()
  | some (.done h) => .ok h
  | some (.pending comp) =>
    match comp with
    | .ok h => .ok h
    | .err _ => .err ()
    | .never => .never

/-- The error taxonomy of a dispatched `send`: `routerError` is the
`RouterError` produced when `get_recipient` fails, `mailboxError` wraps
the failure of the forwarded `Recipient::send`. -/
inductive DispatchError where
  | routerError
  | mailboxError
deriving DecidableEq, Repr

/-- Model of `impl Handler<M> for Router` (`src/router.rs` lines 209–219): look up
the recipient, mapping a lookup failure to `RouterError`, then forward the
message with `h.send(msg)` — `deliver h msg` models the mailbox exchange
with the resolved recipient, failing with a `MailboxError`-like `Unit`. -/
def RouterState.dispatch {HT MT : TypeId → Type} {Req Resp : Type}
    (r : RouterState HT MT) (m : TypeId)
    (deliver : HT m → Req → FutOutcome Unit Resp) (msg : Req) :
    FutOutcome DispatchError Resp :=
  match r.get_recipient m with
  | .err _ => .err .routerError
  | .never => .never
  | .ok h =>
    match deliver h msg with
    | .ok resp => .ok resp
    | .err _ => .err .mailboxError
    | .never => .never

/-- Model of `impl Handler<AddRouteFuture<M, F>> for Router` (`src/router.rs`
lines 166–182), first effect: `self.routes.insert(Route::Pending(shared))` —
the shared pending computation is stored under the key of `M`. -/
def RouterState.insert_pending {HT MT : TypeId → Type} (r : RouterState HT MT)
    (m : TypeId) (comp : FutOutcome Unit (HT m)) : RouterState HT MT :=
  ⟨fun i => if e : i = m then some (e ▸ Route.pending comp) else r.routes i,
   r.msgEntries⟩

/-- Model of `impl Handler<AddRouteFuture<M, F>> for Router`, second effect:
the task spawned on the context of the router awaits the shared future and, on
success, calls `router.insert_handler(recip.deref().clone())`; on failure
(`map_err(|_, _, _| ())`) it does nothing, leaving the table untouched. -/
def RouterState.run_pending_task {HT MT : TypeId → Type} (r : RouterState HT MT)
    (m : TypeId) (comp : FutOutcome Unit (HT m)) : RouterState HT MT :=
  match comp with
  | .ok h => r.insert_handler m h
  | .err _ => r
  | .never => r

/-! ### The shared pending computation (`futures::future::Shared`)

`PendingRoute<M>` wraps the construction future in `Shared`: a
single-assignment, multi-observer cell.  The first poll drives the
underlying boxed future and memoizes its outcome; every later poll (from
any clone of the handle) returns the memoized outcome without re-running
the producer.  `execs` counts how many times the underlying future was
driven. -/

/-- The mutable cell behind all clones of one `Shared` future. -/
structure SharedState (α : Type) where
  memo : Option (FutOutcome Unit α)
  execs : Nat
deriving DecidableEq, Repr

/-- A freshly created `Shared` cell: nothing memoized, producer never run. -/
def SharedState.fresh {α : Type} : SharedState α :=
  ⟨none, 0⟩

/-- Polling a clone of the `Shared` handle whose underlying computation has
eventual outcome `comp`: return the memoized outcome if present, otherwise
run the producer once, memoize, and return its outcome. -/
def Shared.poll {α : Type} (comp : FutOutcome Unit α) (s : SharedState α) :
    FutOutcome Unit α × SharedState α :=
  match s.memo with
  | some o => (o, s)
  | none => (comp, ⟨some comp, s.execs + 1⟩)

/-- One lookup (`get_recipient`) performed against the router, threading
the `Shared` cell of the pending entry for `m` (if any): the `Pending`
branch clones the shared handle, polls it, and maps the success value
(`recip.deref().clone()`), discarding the error. -/
def RouterState.lookup_shared {HT MT : TypeId → Type} (r : RouterState HT MT)
    (m : TypeId) (s : SharedState (HT m)) :
    FutOutcome Unit (HT m) × SharedState (HT m) :=
  match r.routes m with
  | none => (.err (), s)
  | some (.done h) => (.ok h, s)
  | some (.pending comp) =>
    match Shared.poll comp s with
    | (.ok h, s') => (.ok h, s')
    | (.err _, s') => (.err (), s')
    | (.never, s') => (.never, s')

/-- Iteration of `lookup_shared`: `n` callers performing it one after the other (the owning
context serializes all table access), threading the shared cell. -/
def RouterState.lookup_shared_iter {HT MT : TypeId → Type} (r : RouterState HT MT)
    (m : TypeId) : Nat → SharedState (HT m) →
    List (FutOutcome Unit (HT m)) × SharedState (HT m)
  | 0, s => ([], s)
  | n + 1, s =>
    let p := r.lookup_shared m s
    let q := r.lookup_shared_iter m n p.2
    (p.1 :: q.1, q.2)

/-! ### The reply channel (`impl MessageResponse for SoarResponse`) -/

/-- Model of `SoarResponse::handle` (`src/router.rs` lines 247–260): spawn
`self.0.and_then(|res| { if let Some(tx) = tx { tx.send(res) } Ok(()) })
.map_err(|_| ())`.  The result pairs the outcome of the spawned task with
the value sent on the reply channel (`none` means the channel was dropped
without a send). -/
def soar_response_handle {ε Resp : Type} (fut : FutOutcome ε Resp)
    (txPresent : Bool) : FutOutcome Unit Unit × Option Resp :=
  match fut with
  | .ok res => (.ok (), if txPresent then some res else none)
  | .err _ => (.err (), none)
  | .never => (.never, none)

/-! ### Remote transport handlers (`src/http/client.rs`, `src/channel.rs`) -/

/-- Failure of `ClientRequest::send()` (`SendRequestError`): the connection
could not be established, or the exchange timed out. -/
inductive TransportError where
  | connFailure
  | timeout
deriving DecidableEq, Repr

/-- Outcome of the HTTP exchange: a response carrying a status code and a
raw body, or a send error.  (The actix client resolves every exchange —
with a response or a `SendRequestError` — so no `never` case arises.) -/
inductive HttpExchange (β : Type) where
  | response (status : Nat) (body : β)
  | sendError (e : TransportError)
deriving DecidableEq, Repr

/-- The error type of `handle_request`: a wrapped `SendRequestError`, or a
wrapped encode/decode error. -/
inductive HandlerError where
  | transport (e : TransportError)
  | serialization
deriving DecidableEq, Repr

/-- Outcome of one `handle_request` call: the future resolves with the
decoded response, resolves with an error, or the call panics before a
future is even produced. -/
inductive ReqOutcome (α : Type) where
  | ok (a : α)
  | err (e : HandlerError)
  | panicked
deriving DecidableEq, Repr

/-- Model of `HttpHandler::handle_request` from `src/http/client.rs` (bincode
codec): serialize the message (`bincode::serialize(&msg).map_err(...)`,
threaded through `future::result`), POST it, read the raw body, and
deserialize it (`bincode::deserialize(&body)`).  The status code of the
response is never inspected; `encode`/`decode` model the bincode codec and
`transport` models the POST exchange. -/
def HttpHandler.handle_request {M R : Type}
    (encode : M → Option (List Nat)) (decode : List Nat → Option R)
    (transport : List Nat → HttpExchange (List Nat)) (msg : M) :
    ReqOutcome R :=
  match encode msg with
  | none => .err .serialization
  | some payload =>
    match transport payload with
    | .sendError e => .err (.transport e)
    | .response _ body =>
      match decode body with
      | none => .err .serialization
      | some r => .ok r

/-- Model of `HttpHandler::handle_request` from `src/channel.rs` (JSON codec):
`ClientRequest::post(url).json(msg).unwrap()` — the serialization `Result`
of the request builder is unwrapped, so an encode failure panics — then
POST and `resp.json().map_err(Error::from)`.  The status code is never
inspected here either. -/
def ChannelHttpHandler.handle_request {M R : Type}
    (encode : M → Option (List Nat)) (decode : List Nat → Option R)
    (transport : List Nat → HttpExchange (List Nat)) (msg : M) :
    ReqOutcome R :=
  match encode msg with
  | none => .panicked
  | some payload =>
    match transport payload with
    | .sendError e => .err (.transport e)
    | .response _ body =>
      match decode body with
      | none => .err .serialization
      | some r => .ok r

/-! ### Test message types and their bincode codec (`src/test_helpers.rs`) -/

/-- Model of `pub struct TestMessage(pub u8)`; the `u8` payload is a `Nat` kept
below `256` wherever the codec is involved. -/
structure TestMessage where
  val : Nat
deriving DecidableEq, Repr

/-- Model of `pub struct TestResponse(pub u8)`. -/
structure TestResponse where
  val : Nat
deriving DecidableEq, Repr

/-- Model of `impl Handler<TestMessage> for TestHandler` (`src/test_helpers.rs`
lines 44–51): `MessageResult(TestResponse(msg.0))` — the echo handler. -/
def TestHandler.handle (msg : TestMessage) : TestResponse :=
  ⟨msg.val⟩

/-- The response an echoing handler is expected to produce for `m`:
`TestResponse(x)` for `TestMessage(x)`. -/
def expected_response_for (m : TestMessage) : TestResponse :=
  ⟨m.val⟩

/-- Model of `bincode::serialize` for the newtype `TestMessage(u8)`: one byte. -/
def encodeTestMessage (m : TestMessage) : Option (List Nat) :=
  if m.val < 256 then some [m.val] else none

/-- Model of `bincode::deserialize` for `TestMessage`: exactly one byte. -/
def decodeTestMessage (b : List Nat) : Option TestMessage :=
  match b with
  | [x] => if x < 256 then some ⟨x⟩ else none
  | _ => none

/-- Model of `bincode::serialize` for the newtype `TestResponse(u8)`: one byte. -/
def encodeTestResponse (r : TestResponse) : Option (List Nat) :=
  if r.val < 256 then some [r.val] else none

/-- Model of `bincode::deserialize` for `TestResponse`: exactly one byte. -/
def decodeTestResponse (b : List Nat) : Option TestResponse :=
  match b with
  | [x] => if x < 256 then some ⟨x⟩ else none
  | _ => none

/-- The test service of `test_http_channel` in `src/http/client.rs`,
generalized as the claim states it: it answers `TestResponse(x)` (bincode
encoded, status `200 OK`) to a request whose body decodes to
`TestMessage(x)`. -/
def echoService (body : List Nat) : HttpExchange (List Nat) :=
  match decodeTestMessage body with
  | some m =>
    match encodeTestResponse ⟨m.val⟩ with
    | some out => .response 200 out
    | none => .response 500 []
  | none => .response 500 []

/-- Local in-process delivery of a message to a resolved handler modelled
as a pure function: the mailbox exchange succeeds and the reply of the handler
is returned. -/
def localDeliver {Req Resp : Type} (h : Req → Resp) (msg : Req) :
    FutOutcome Unit Resp :=
  .ok (h msg)

/-- A handler-type assignment for the concrete test scenario: every type
identity carries handlers for `TestMessage`. -/
abbrev TestHT : TypeId → Type := fun _ => TestMessage → TestResponse

/-- The matching message-type assignment: every identity carries
`TestMessage` values at its bare key. -/
abbrev TestMT : TypeId → Type := fun _ => TestMessage

/-! ### Helper lemmas about the routing table -/

theorem RouterState.insert_handler_routes_self {HT MT : TypeId → Type}
    (r : RouterState HT MT) (m : TypeId) (h : HT m) :
    (r.insert_handler m h).routes m = some (.done h) := by
  show (if e : m = m then some (e ▸ Route.done h) else r.routes m) = _
  rw [dif_pos rfl]

theorem RouterState.insert_handler_routes_other {HT MT : TypeId → Type}
    (r : RouterState HT MT) (m i : TypeId) (h : HT m) (hne : i ≠ m) :
    (r.insert_handler m h).routes i = r.routes i := by
  show (if e : i = m then some (e ▸ Route.done h) else r.routes i) = _
  rw [dif_neg hne]

theorem RouterState.insert_pending_routes_self {HT MT : TypeId → Type}
    (r : RouterState HT MT) (m : TypeId) (comp : FutOutcome Unit (HT m)) :
    (r.insert_pending m comp).routes m = some (.pending comp) := by
  show (if e : m = m then some (e ▸ Route.pending comp) else r.routes m) = _
  rw [dif_pos rfl]

theorem RouterState.remove_handler_routes {HT MT : TypeId → Type}
    (r : RouterState HT MT) (m i : TypeId) :
    (r.remove_handler m).routes i = r.routes i :=
  rfl

theorem RouterState.remove_handler_msg_self {HT MT : TypeId → Type}
    (r : RouterState HT MT) (m : TypeId) :
    (r.remove_handler m).msgEntries m = none := by
  show (if m = m then none else r.msgEntries m) = _
  rw [if_pos rfl]

theorem RouterState.remove_handler_msg_other {HT MT : TypeId → Type}
    (r : RouterState HT MT) (m i : TypeId) (hne : i ≠ m) :
    (r.remove_handler m).msgEntries i = r.msgEntries i := by
  show (if i = m then none else r.msgEntries i) = _
  rw [if_neg hne]

theorem RouterState.insert_handler_msg {HT MT : TypeId → Type}
    (r : RouterState HT MT) (m i : TypeId) (h : HT m) :
    (r.insert_handler m h).msgEntries i = r.msgEntries i :=
  rfl

theorem RouterState.get_recipient_of_none {HT MT : TypeId → Type}
    (r : RouterState HT MT) (m : TypeId) (hnone : r.routes m = none) :
    r.get_recipient m = .err () := by
  unfold RouterState.get_recipient
  rw [hnone]

theorem RouterState.get_recipient_of_done {HT MT : TypeId → Type}
    (r : RouterState HT MT) (m : TypeId) (h : HT m)
    (hdone : r.routes m = some (.done h)) :
    r.get_recipient m = .ok h := by
  unfold RouterState.get_recipient
  rw [hdone]

theorem RouterState.dispatch_of_none {HT MT : TypeId → Type} {Req Resp : Type}
    (r : RouterState HT MT) (m : TypeId)
    (deliver : HT m → Req → FutOutcome Unit Resp) (msg : Req)
    (hnone : r.routes m = none) :
    r.dispatch m deliver msg = .err .routerError := by
  unfold RouterState.dispatch
  rw [r.get_recipient_of_none m hnone]

/-! ### The claims -/

/-- Claim C1, evaluated at the failing input.  The never-registered half of
the claim holds: on the empty router, dispatching `TestMessage(3)` fails
immediately with the no-route `RouterError` (first conjunct).  The removal
half is a code bug: `remove_handler` executes `self.routes.remove::<M>()`,
which removes the `AnyMap` entry keyed by the bare type `M`, while every
route is stored under the key `Route<M>` — a key the removal never
touches.  So after registering `TestHandler` for `TestMessage` and then
calling `remove_handler` for the same type, the `Done` route is still
present (second conjunct) and dispatch still succeeds with
`TestResponse(3)` (third conjunct), where the claim — matching the doc
comment of `remove_handler` ("Delete a handler from the routing table")
and spec §4.1 — requires a no-route failure. -/
theorem send_after_remove_still_succeeds :
    (RouterState.new TestHT TestMT).dispatch 0 localDeliver
        (⟨3⟩ : TestMessage) = .err .routerError ∧
    (((RouterState.new TestHT TestMT).insert_handler 0
        TestHandler.handle).remove_handler 0).routes 0
        = some (.done TestHandler.handle) ∧
    (((RouterState.new TestHT TestMT).insert_handler 0
        TestHandler.handle).remove_handler 0).dispatch 0 localDeliver ⟨3⟩
        = .ok (TestResponse.mk 3) :=
  ⟨rfl, rfl, rfl⟩

/-- Claim C2: if the table entry for the type of the message is
`Done(handler)` and the handler echoes its input — returning
`expected_response_for x` on input `x`, as `TestHandler` does — then a
dispatched `send` returns exactly `expected_response_for msg`. -/
theorem done_echo_route_dispatch
    (r : RouterState TestHT TestMT) (m : TypeId)
    (h : TestMessage → TestResponse) (msg : TestMessage)
    (hroute : r.routes m = some (.done h))
    (hecho : ∀ x, h x = expected_response_for x) :
    r.dispatch m localDeliver msg = .ok (expected_response_for msg) := by
  unfold RouterState.dispatch
  rw [r.get_recipient_of_done m h hroute]
  show (match localDeliver h msg with
    | .ok resp => (.ok resp : FutOutcome DispatchError TestResponse)
    | .err _ => .err .mailboxError
    | .never => .never) = _
  rw [localDeliver, hecho]

/-- Concrete instance of `done_echo_route_dispatch`: registering
`TestHandler` for identity `0` makes dispatch of `TestMessage(7)` return
`TestResponse(7)`. -/
theorem done_echo_route_dispatch_witness :
    ((RouterState.new TestHT TestMT).insert_handler 0 TestHandler.handle).routes 0
        = some (.done TestHandler.handle) ∧
    ((RouterState.new TestHT TestMT).insert_handler 0 TestHandler.handle).dispatch 0
        localDeliver ⟨7⟩ = .ok (expected_response_for ⟨7⟩) :=
  ⟨rfl, done_echo_route_dispatch _ 0 TestHandler.handle ⟨7⟩ rfl (fun _ => rfl)⟩

/-- Claim C4: `insert_handler` stores `Done(handler)` under the key of the
message type, unconditionally overwriting any prior entry (the prior
router state is arbitrary, so the overwritten entry may be `Done`,
`Pending`, or absent); consequently, after registering twice, dispatch
behaves exactly as if only the second handler had ever been registered. -/
theorem insert_handler_overwrites {HT MT : TypeId → Type} {Req Resp : Type}
    (r : RouterState HT MT) (m : TypeId) (h₁ h₂ : HT m)
    (deliver : HT m → Req → FutOutcome Unit Resp) (msg : Req) :
    (r.insert_handler m h₂).routes m = some (.done h₂) ∧
    ((r.insert_handler m h₁).insert_handler m h₂).routes m
        = some (.done h₂) ∧
    ((r.insert_handler m h₁).insert_handler m h₂).dispatch m deliver msg
        = ((RouterState.new HT MT).insert_handler m h₂).dispatch m deliver msg := by
  refine ⟨r.insert_handler_routes_self m h₂,
    ((r.insert_handler m h₁).insert_handler_routes_self m h₂), ?_⟩
  unfold RouterState.dispatch
  rw [RouterState.get_recipient_of_done _ m h₂
        (((r.insert_handler m h₁)).insert_handler_routes_self m h₂),
      RouterState.get_recipient_of_done _ m h₂
        ((RouterState.new HT MT).insert_handler_routes_self m h₂)]

/-- Claim C9: `insert_handler` and `remove_handler` for the key of `M`
modify only their own slot of the `AnyMap` — the entry of every other type
identity `n`, route slot and bare-message slot alike, is exactly what it
was before the operation.  `insert_handler` writes only the route slot of
`m` (leaving every bare-message slot unchanged), and `remove_handler`
deletes only the bare-`M` slot, so it leaves every route entry unchanged —
including, as the removal targets a key no insertion path populates, the
route entry of `m` itself (last conjunct). -/
theorem insert_remove_frame {HT MT : TypeId → Type} (r : RouterState HT MT)
    (m n : TypeId) (h : HT m) (hne : n ≠ m) :
    ((r.insert_handler m h).routes n = r.routes n ∧
      (r.insert_handler m h).msgEntries n = r.msgEntries n) ∧
    ((r.remove_handler m).routes n = r.routes n ∧
      (r.remove_handler m).msgEntries n = r.msgEntries n) ∧
    (r.remove_handler m).routes m = r.routes m :=
  ⟨⟨r.insert_handler_routes_other m n h hne, r.insert_handler_msg m n h⟩,
   ⟨r.remove_handler_routes m n, r.remove_handler_msg_other m n hne⟩,
   r.remove_handler_routes m m⟩

/-- Concrete instance of `insert_remove_frame`: inserting and removing at
identity `0` leaves both slots at identity `1` untouched, and the removal
leaves the route slot at identity `0` untouched as well. -/
theorem insert_remove_frame_witness :
    (1 : TypeId) ≠ 0 ∧
    (((((RouterState.new TestHT TestMT).insert_handler 1
            TestHandler.handle).insert_handler 0 TestHandler.handle).routes 1
          = ((RouterState.new TestHT TestMT).insert_handler 1
              TestHandler.handle).routes 1 ∧
        (((RouterState.new TestHT TestMT).insert_handler 1
            TestHandler.handle).insert_handler 0 TestHandler.handle).msgEntries 1
          = ((RouterState.new TestHT TestMT).insert_handler 1
              TestHandler.handle).msgEntries 1) ∧
      ((((RouterState.new TestHT TestMT).insert_handler 1
            TestHandler.handle).remove_handler 0).routes 1
          = ((RouterState.new TestHT TestMT).insert_handler 1
              TestHandler.handle).routes 1 ∧
        (((RouterState.new TestHT TestMT).insert_handler 1
            TestHandler.handle).remove_handler 0).msgEntries 1
          = ((RouterState.new TestHT TestMT).insert_handler 1
              TestHandler.handle).msgEntries 1) ∧
      (((RouterState.new TestHT TestMT).insert_handler 1
          TestHandler.handle).remove_handler 0).routes 0
        = ((RouterState.new TestHT TestMT).insert_handler 1
            TestHandler.handle).routes 0) :=
  ⟨by decide,
    insert_remove_frame
      ((RouterState.new TestHT TestMT).insert_handler 1 TestHandler.handle)
      0 1 TestHandler.handle (by decide)⟩

/-- Claim C10: when the response future inside a `SoarResponse` fails with
any error, the `MessageResponse` implementation maps the error to `()` in
the spawned task and drops the reply channel without sending a value on
it — the error value is never transmitted through the channel, whether or
not a channel is present. -/
theorem soar_response_discards_error {ε Resp : Type} (e : ε)
    (txPresent : Bool) :
    soar_response_handle (FutOutcome.err e : FutOutcome ε Resp) txPresent
      = (.err (), none) :=
  rfl

/-- Claim C3: `insert_pending` stores `Pending(shared comp)` under the key
of the message type; the spawned task, when the computation succeeds with
handler `h`, promotes the entry to `Done h` — after which a fresh
`get_recipient` returns the handler through the `Done` branch — and when
the computation does not succeed the whole router state is left exactly
as it was (still `Pending`). -/
theorem pending_route_promotion {HT MT : TypeId → Type}
    (r : RouterState HT MT) (m : TypeId) (comp : FutOutcome Unit (HT m))
    (h : HT m) :
    (r.insert_pending m comp).routes m = some (.pending comp) ∧
    (comp = .ok h →
      ((r.insert_pending m comp).run_pending_task m comp).routes m
          = some (.done h) ∧
      ((r.insert_pending m comp).run_pending_task m comp).get_recipient m
          = .ok h) ∧
    ((∀ x, comp ≠ .ok x) →
      (r.insert_pending m comp).run_pending_task m comp
          = r.insert_pending m comp) := by
  refine ⟨r.insert_pending_routes_self m comp, fun hok => ?_, fun hfail => ?_⟩
  · subst hok
    exact ⟨RouterState.insert_handler_routes_self _ m h,
      RouterState.get_recipient_of_done _ m h
        (RouterState.insert_handler_routes_self _ m h)⟩
  · cases comp with
    | ok x => exact absurd rfl (hfail x)
    | err e => rfl
    | never => rfl

/-- Concrete instance of `pending_route_promotion`: a pending route at
identity `0` resolving to `TestHandler.handle` is promoted to `Done`, and
the resolved handler is returned by a fresh lookup. -/
theorem pending_route_promotion_witness :
    ((RouterState.new TestHT TestMT).insert_pending 0 (.ok TestHandler.handle)).routes 0
        = some (.pending (.ok TestHandler.handle)) ∧
    (((RouterState.new TestHT TestMT).insert_pending 0
        (.ok TestHandler.handle)).run_pending_task 0
        (.ok TestHandler.handle)).routes 0 = some (.done TestHandler.handle) ∧
    (((RouterState.new TestHT TestMT).insert_pending 0
        (.ok TestHandler.handle)).run_pending_task 0
        (.ok TestHandler.handle)).get_recipient 0 = .ok TestHandler.handle :=
  ⟨(pending_route_promotion (RouterState.new TestHT TestMT) 0 (.ok TestHandler.handle)
      TestHandler.handle).1,
   ((pending_route_promotion (RouterState.new TestHT TestMT) 0 (.ok TestHandler.handle)
      TestHandler.handle).2.1 rfl).1,
   ((pending_route_promotion (RouterState.new TestHT TestMT) 0 (.ok TestHandler.handle)
      TestHandler.handle).2.1 rfl).2⟩

theorem lookup_shared_iter_memoized {HT MT : TypeId → Type} (r : RouterState HT MT)
    (m : TypeId) (h : HT m) (k n : Nat)
    (hroute : r.routes m = some (.pending (.ok h))) :
    r.lookup_shared_iter m n ⟨some (.ok h), k⟩
      = (List.replicate n (.ok h), ⟨some (.ok h), k⟩) := by
  induction n with
  | zero => rfl
  | succ n ih =>
    have hl : r.lookup_shared m ⟨some (.ok h), k⟩ = (.ok h, ⟨some (.ok h), k⟩) := by
      unfold RouterState.lookup_shared
      rw [hroute]
      rfl
    simp [RouterState.lookup_shared_iter, hl, ih, List.replicate]

/-- Claim C8: while the route for a type is `Pending` on a shared
computation that resolves to handler `h`, any positive number `n` of
serialized lookups all receive the identical resolved value `.ok h` (each
caller getting its own clone), and the underlying construction
computation is executed exactly once. -/
theorem pending_shared_single_execution {HT MT : TypeId → Type}
    (r : RouterState HT MT) (m : TypeId) (h : HT m) (n : Nat)
    (hroute : r.routes m = some (.pending (.ok h))) (hn : 1 ≤ n) :
    (r.lookup_shared_iter m n SharedState.fresh).1
        = List.replicate n (.ok h) ∧
    (r.lookup_shared_iter m n SharedState.fresh).2.execs = 1 := by
  obtain ⟨k, rfl⟩ : ∃ k, n = k + 1 := ⟨n - 1, (Nat.succ_pred_eq_of_pos hn).symm⟩
  have hfirst : r.lookup_shared m SharedState.fresh
      = (.ok h, ⟨some (.ok h), 1⟩) := by
    unfold RouterState.lookup_shared
    rw [hroute]
    rfl
  have hrest := lookup_shared_iter_memoized r m h 1 k hroute
  simp [RouterState.lookup_shared_iter, hfirst, hrest, List.replicate]

/-- Concrete instance of `pending_shared_single_execution`: three
serialized lookups against a pending route resolving to
`TestHandler.handle` all receive that handler, with a single execution of
the construction computation. -/
theorem pending_shared_single_execution_witness :
    (1 : Nat) ≤ 3 ∧
    ((((RouterState.new TestHT TestMT).insert_pending 0
        (.ok TestHandler.handle)).lookup_shared_iter 0 3 SharedState.fresh).1
        = List.replicate 3 (.ok TestHandler.handle) ∧
      (((RouterState.new TestHT TestMT).insert_pending 0
        (.ok TestHandler.handle)).lookup_shared_iter 0 3 SharedState.fresh).2.execs
        = 1) :=
  ⟨by decide,
    pending_shared_single_execution
      ((RouterState.new TestHT TestMT).insert_pending 0 (.ok TestHandler.handle))
      0 TestHandler.handle 3 rfl (by decide)⟩

/-- Counterexample to claim C5 as stated: the remote transport handler
never inspects the HTTP status code, so a non-OK response (status `500`)
whose body decodes as a `TestResponse` makes `handle_request` return the
decoded value instead of failing with a transport error. -/
theorem nonok_status_returns_decoded_value :
    HttpHandler.handle_request encodeTestMessage decodeTestResponse
      (fun _ => HttpExchange.response 500 [138]) (TestMessage.mk 0)
      = .ok (TestResponse.mk 138) :=
  rfl

/-- Claim C5 as amended: a connection failure or timeout of the HTTP
exchange makes `handle_request` (in both transport handler
implementations) fail with a transport error rather than hang or return
a value; the HTTP status code of a received response is never inspected —
the body of any response, whatever its status, is decoded like a
success. -/
theorem transport_failure_surfaced {M R : Type}
    (encode : M → Option (List Nat)) (decode : List Nat → Option R)
    (transport transport₂ : List Nat → HttpExchange (List Nat)) (msg : M)
    (payload body : List Nat) (e : TransportError) (status : Nat) (res : R)
    (henc : encode msg = some payload)
    (htr : transport payload = .sendError e)
    (htr₂ : transport₂ payload = .response status body)
    (hdec : decode body = some res) :
    HttpHandler.handle_request encode decode transport msg
        = .err (.transport e) ∧
    ChannelHttpHandler.handle_request encode decode transport msg
        = .err (.transport e) ∧
    HttpHandler.handle_request encode decode transport₂ msg = .ok res := by
  refine ⟨?_, ?_, ?_⟩ <;>
    simp [HttpHandler.handle_request, ChannelHttpHandler.handle_request,
      henc, htr, htr₂, hdec]

/-- Concrete instance of `transport_failure_surfaced`: a timed-out
exchange fails with a transport error in both handler implementations,
and a `404` response with decodable body yields the decoded value. -/
theorem transport_failure_surfaced_witness :
    HttpHandler.handle_request encodeTestMessage decodeTestResponse
        (fun _ => .sendError .timeout) (TestMessage.mk 1)
        = .err (.transport .timeout) ∧
    ChannelHttpHandler.handle_request encodeTestMessage decodeTestResponse
        (fun _ => .sendError .timeout) (TestMessage.mk 1)
        = .err (.transport .timeout) ∧
    HttpHandler.handle_request encodeTestMessage decodeTestResponse
        (fun _ => .response 404 [5]) (TestMessage.mk 1)
        = .ok (TestResponse.mk 5) :=
  transport_failure_surfaced encodeTestMessage decodeTestResponse
    (fun _ => .sendError .timeout) (fun _ => .response 404 [5])
    (TestMessage.mk 1) [1] [5] .timeout 404 (TestResponse.mk 5)
    rfl rfl rfl rfl

/-- Counterexample to claim C6 as stated: in the JSON transport handler of
`src/channel.rs` the serialization result of the request builder is
unwrapped, so for a message whose encoding fails `handle_request` panics
instead of surfacing a failure value. -/
theorem json_encode_error_panics :
    ChannelHttpHandler.handle_request
      (fun _ : TestMessage => (none : Option (List Nat)))
      decodeTestResponse (fun _ => HttpExchange.response 200 [0])
      (TestMessage.mk 0) = .panicked :=
  rfl

/-- Claim C6 as amended: the bincode transport handler of
`src/http/client.rs` never panics — an encode error on the request and a
decode error on the response body are both surfaced as serialization
failure values, the same way a transport failure is surfaced; in the JSON
transport handler of `src/channel.rs` a decode error is likewise surfaced
as a serialization failure value, but an encode error causes a panic. -/
theorem codec_errors_surfaced {M R : Type}
    (encode : M → Option (List Nat)) (decode : List Nat → Option R)
    (transport : List Nat → HttpExchange (List Nat)) (msg : M)
    (payload body : List Nat) (status : Nat) :
    HttpHandler.handle_request encode decode transport msg ≠ .panicked ∧
    (encode msg = none →
      HttpHandler.handle_request encode decode transport msg
          = .err .serialization ∧
      ChannelHttpHandler.handle_request encode decode transport msg
          = .panicked) ∧
    (encode msg = some payload → transport payload = .response status body →
      decode body = none →
      HttpHandler.handle_request encode decode transport msg
          = .err .serialization ∧
      ChannelHttpHandler.handle_request encode decode transport msg
          = .err .serialization) := by
  refine ⟨?_, fun hnone => ?_, fun henc htr hdec => ?_⟩
  · unfold HttpHandler.handle_request
    cases hencEq : encode msg with
    | none => simp
    | some payload₂ =>
      cases htrEq : transport payload₂ with
      | sendError e => simp [htrEq]
      | response st body₂ =>
        cases hdecEq : decode body₂ with
        | none => simp [htrEq, hdecEq]
        | some rr => simp [htrEq, hdecEq]
  · constructor <;>
      simp [HttpHandler.handle_request, ChannelHttpHandler.handle_request, hnone]
  · constructor <;>
      simp [HttpHandler.handle_request, ChannelHttpHandler.handle_request,
        henc, htr, hdec]

/-- Concrete instance of `codec_errors_surfaced`: with a failing encoder
the bincode handler surfaces a serialization error while the JSON handler
panics; with an undecodable response body both surface a serialization
error. -/
theorem codec_errors_surfaced_witness :
    (HttpHandler.handle_request
        (fun _ : TestMessage => (none : Option (List Nat)))
        decodeTestResponse (fun _ => HttpExchange.response 200 [0])
        (TestMessage.mk 0) = .err .serialization ∧
      ChannelHttpHandler.handle_request
        (fun _ : TestMessage => (none : Option (List Nat)))
        decodeTestResponse (fun _ => HttpExchange.response 200 [0])
        (TestMessage.mk 0) = .panicked) ∧
    (HttpHandler.handle_request encodeTestMessage decodeTestResponse
        (fun _ => HttpExchange.response 200 []) (TestMessage.mk 0)
        = .err .serialization ∧
      ChannelHttpHandler.handle_request encodeTestMessage decodeTestResponse
        (fun _ => HttpExchange.response 200 []) (TestMessage.mk 0)
        = .err .serialization) :=
  ⟨(codec_errors_surfaced (fun _ : TestMessage => none) decodeTestResponse
      (fun _ => HttpExchange.response 200 [0]) (TestMessage.mk 0)
      [] [] 0).2.1 rfl,
   (codec_errors_surfaced encodeTestMessage decodeTestResponse
      (fun _ => HttpExchange.response 200 []) (TestMessage.mk 0)
      [0] [] 200).2.2 rfl rfl rfl⟩

/-- Claim C7: the bincode codec of the test message types round-trips —
decoding the encoding of any in-range `TestMessage` or `TestResponse`
yields the original value — and sending `TestMessage(138)` through the
remote transport handler pointed at a service that answers
`TestResponse(x)` for `TestMessage(x)` returns `TestResponse(138)`. -/
theorem bincode_roundtrip (m : TestMessage) (r : TestResponse)
    (hm : m.val < 256) (hr : r.val < 256) :
    (encodeTestMessage m).bind decodeTestMessage = some m ∧
    (encodeTestResponse r).bind decodeTestResponse = some r ∧
    HttpHandler.handle_request encodeTestMessage decodeTestResponse
      echoService (TestMessage.mk 138) = .ok (TestResponse.mk 138) := by
  refine ⟨?_, ?_, rfl⟩
  · simp [encodeTestMessage, decodeTestMessage, hm]
  · simp [encodeTestResponse, decodeTestResponse, hr]

/-- Concrete instance of `bincode_roundtrip` at `TestMessage(138)` and
`TestResponse(7)`. -/
theorem bincode_roundtrip_witness :
    (138 : Nat) < 256 ∧ (7 : Nat) < 256 ∧
    ((encodeTestMessage ⟨138⟩).bind decodeTestMessage = some ⟨138⟩ ∧
      (encodeTestResponse ⟨7⟩).bind decodeTestResponse = some ⟨7⟩ ∧
      HttpHandler.handle_request encodeTestMessage decodeTestResponse
        echoService (TestMessage.mk 138) = .ok (TestResponse.mk 138)) :=
  ⟨by decide, by decide, bincode_roundtrip ⟨138⟩ ⟨7⟩ (by decide) (by decide)⟩

end Soar
